import Mathlib

/-!
Verification of the Tabular Reconciliation & Paginated View Engine.

Data model: a cell value is a number, a string, or null; a row maps column
names to values (a missing key reads as null); a dataset is a header list
plus a row list.  The frontend page components (ViewData.tsx, CleanData.tsx)
are embedded as pure state-transition functions; the backend
classifier/reconciler is not in the frontend sources and is modelled from
the specification where indicated.
-/

/-- A cell value of a row: a number or a string.  JSON null is represented
by wrapping in `Option` (`none` = null). -/
inductive Cell where
  | num (q : ℚ)
  | str (s : String)
deriving DecidableEq, Repr

/-- A possibly-null cell value (`none` is the explicit null marker). -/
abbrev Value := Option Cell

/-- A row: an association list from column name to value.  A key missing
from the list is read as null by `getVal`. -/
abbrev Row := List (String × Value)

/-- A dataset: ordered headers plus ordered rows. -/
structure Dataset where
  headers : List String
  rows : List Row
deriving DecidableEq, Repr

/-- Value of row `r` in column `c`; a missing key is treated as null. -/
def getVal (r : Row) (c : String) : Value :=
  match r.lookup c with
  | some v => v
  | none => none

/-- Null-or-empty test: JSON null and the empty string are both treated as
the "missing" marker (spec section 3 and section 6). -/
def isMissing (v : Value) : Bool :=
  match v with
  | none => true
  | some (Cell.str "") => true
  | some _ => false

/-- The values of a row in the order its own keys enumerate
(JS Object.values). -/
def rowValues (r : Row) : List Value :=
  r.map Prod.snd

/-- Whitespace test for one character (the characters JS trim strips, in
the forms the datasets use). -/
def isBlankChar (c : Char) : Bool :=
  c = ' ' || c = '\t' || c = '\n' || c = '\r'

/-- JS `!query.trim()`: the query is empty or whitespace-only. -/
def isBlank (q : String) : Bool :=
  q.data.all isBlankChar

/-- JS String.prototype.toLowerCase, as a character list. -/
def lowerChars (s : String) : List Char :=
  s.data.map Char.toLower

/-- Substring test on character lists: `containsSub hay needle` is true iff
`needle` occurs contiguously inside `hay` (JS String.prototype.includes). -/
def containsSub (hay needle : List Char) : Bool :=
  (hay.tails).any (fun t => needle.isPrefixOf t)

/-- JS String(value) coercion: null renders as the string "null", numbers
via their decimal form, strings as themselves. -/
def jsString (v : Value) : String :=
  match v with
  | none => "null"
  | some (Cell.num q) => toString q
  | some (Cell.str s) => s

/-- Case-insensitive substring match of query `q` against the string form
of value `v` (JS `String(value).toLowerCase().includes(q.toLowerCase())`). -/
def valueMatches (q : String) (v : Value) : Bool :=
  containsSub (lowerChars (jsString v)) (lowerChars q)

namespace ViewData

/-- Row predicate of ViewData.tsx handleSearch: some field of the row
(nulls included, via their string form "null") matches the query. -/
def rowMatches (q : String) (r : Row) : Bool :=
  (rowValues r).any (valueMatches q)

/-- ViewData.tsx handleSearch as a pure function from the materialized page
and the search term to the new filtered list: a blank query restores the
whole page, otherwise rows are kept when any field value's string form
contains the query case-insensitively. -/
def handleSearch (rows : List Row) (q : String) : List Row :=
  if isBlank q then rows
  else rows.filter (rowMatches q)

end ViewData

namespace CleanData

/-- Row predicate of CleanData.tsx handleSearch: some field of the row
matches the query, with null (and JS undefined) fields excluded from
matching before the string coercion. -/
def rowMatches (q : String) (r : Row) : Bool :=
  (rowValues r).any (fun v =>
    match v with
    | none => false
    | some c => valueMatches q (some c))

/-- CleanData.tsx handleSearch as a pure function: blank query restores the
full preview, an empty preview filters to the empty list, otherwise rows
are kept when any non-null field matches the lowered query. -/
def handleSearch (rows : List Row) (q : String) : List Row :=
  if isBlank q then rows
  else if rows.isEmpty then []
  else rows.filter (rowMatches q)

end CleanData

/-- Pagination metadata as delivered by the view-data endpoint and held in
component state. -/
structure Pagination where
  current_page : Int
  total_pages : Int
  total_rows : Int
  page_size : Int
deriving DecidableEq, Repr

/-- Payload of a successful paginated read: rows, headers and fresh
pagination metadata. -/
structure FetchResult where
  data : List Row
  headers : List String
  pagination : Pagination
deriving DecidableEq, Repr

namespace ViewData

/-- The component state of ViewData.tsx relevant to fetching, searching and
pagination. -/
structure State where
  data : List Row
  filteredData : List Row
  headers : List String
  pagination : Pagination
  loading : Bool
  error : Option String
  searchTerm : String
deriving DecidableEq, Repr

/-- ViewData.tsx fetchData: sets loading and clears the error, then on a
successful response replaces data, filteredData, headers and pagination
with the fetched page; on a non-success response or transport error only
the error message is recorded (the thrown message), the previous
data/headers/pagination are left as they were. -/
def fetchData (s : State) (outcome : Except String FetchResult) : State :=
  let s1 : State := { s with loading := true, error := none }
  match outcome with
  | Except.ok res =>
      { s1 with
        data := res.data
        filteredData := res.data
        headers := res.headers
        pagination := res.pagination
        loading := false }
  | Except.error msg =>
      { s1 with error := some msg, loading := false }

/-- ViewData.tsx handlePageChange: the fetch is issued (returning the page
requested) only when the new page is within [1, total_pages]; otherwise no
request is made. -/
def handlePageChange (pag : Pagination) (newPage : Int) : Option Int :=
  if 1 ≤ newPage ∧ newPage ≤ pag.total_pages then some newPage else none

/-- ViewData.tsx handleSearch acting on component state: recomputes
filteredData from the current page and the entered term. -/
def handleSearchState (s : State) (q : String) : State :=
  { s with searchTerm := q, filteredData := handleSearch s.data q }

/-- ViewData.tsx handleClearSearch: blanks the term and restores the full
current page as the visible list. -/
def handleClearSearch (s : State) : State :=
  { s with searchTerm := "", filteredData := s.data }

/-- The user-driven operations of the paginated view. -/
inductive Op where
  | fetch (outcome : Except String FetchResult)
  | search (q : String)
  | clearSearch

/-- One step of the ViewData page: apply an operation to the state. -/
def applyOp (s : State) : Op → State
  | Op.fetch outcome => fetchData s outcome
  | Op.search q => handleSearchState s q
  | Op.clearSearch => handleClearSearch s

/-- Initial mount state of ViewData.tsx (empty page, loading). -/
def initState : State :=
  { data := []
    filteredData := []
    headers := []
    pagination := { current_page := 1, total_pages := 1, total_rows := 0, page_size := 50 }
    loading := true
    error := none
    searchTerm := "" }

end ViewData

namespace CleanData

/-- The component state of CleanData.tsx relevant to the full-data modal
fetch and its pagination. -/
structure State where
  fullData : List Row
  fullDataHeaders : List String
  fullDataPagination : Pagination
  fullDataError : Option String
  isLoadingFullData : Bool
deriving DecidableEq, Repr

/-- CleanData.tsx fetchPaginatedData: without a file name only an error is
recorded; otherwise loading is set and the error cleared, then a success
replaces rows, headers and pagination while a failure records the message
and clears rows and headers — the pagination object is left untouched. -/
def fetchPaginatedData (s : State) (fileName : Option String)
    (outcome : Except String FetchResult) : State :=
  match fileName with
  | none => { s with fullDataError := some "Nombre de archivo no disponible." }
  | some _ =>
    let s1 : State := { s with isLoadingFullData := true, fullDataError := none }
    match outcome with
    | Except.ok res =>
        { s1 with
          fullData := res.data
          fullDataHeaders := res.headers
          fullDataPagination := res.pagination
          isLoadingFullData := false }
    | Except.error msg =>
        { s1 with
          fullDataError := some msg
          fullData := []
          fullDataHeaders := []
          isLoadingFullData := false }

/-- CleanData.tsx handleFullDataPageChange: a fetch is issued only when a
file name is present and the new page is within [1, total_pages]. -/
def handleFullDataPageChange (fileName : Option String) (pag : Pagination)
    (newPage : Int) : Option Int :=
  if fileName.isSome ∧ 1 ≤ newPage ∧ newPage ≤ pag.total_pages then some newPage
  else none

end CleanData

/-- The inferred semantic type of a column. -/
inductive ColumnType where
  | numeric
  | categorical
deriving DecidableEq, Repr

/-- Digits of a character list folded into a natural number (no validity
check; used only after an all-digit test). -/
def digitsToNat (cs : List Char) : Nat :=
  cs.foldl (fun a c => a * 10 + (c.toNat - 48)) 0

/-- Modelled from the spec: the unsigned part of the tolerant numeric
coercion of section 4.1 — digits with an optional fractional part
(accepts "42" and "3.14", rejects "abc"); the coercion itself is in the
backend, which is not among the frontend sources. -/
def parseUnsigned (cs : List Char) : Option ℚ :=
  match cs.splitOn '.' with
  | [intPart] =>
      if intPart ≠ [] ∧ intPart.all Char.isDigit then
        some (digitsToNat intPart)
      else none
  | [intPart, fracPart] =>
      if intPart ≠ [] ∧ fracPart ≠ [] ∧ intPart.all Char.isDigit ∧
          fracPart.all Char.isDigit then
        some ((digitsToNat intPart : ℚ) +
          (digitsToNat fracPart : ℚ) / ((10 : ℚ) ^ fracPart.length))
      else none
  | _ => none

/-- Modelled from the spec: tolerant numeric literal coercion with an
optional leading sign (section 4.1). -/
def parseNumeric (s : String) : Option ℚ :=
  match s.data with
  | [] => none
  | c :: rest =>
      if c = '-' then (parseUnsigned rest).map (fun q => -q)
      else if c = '+' then parseUnsigned rest
      else parseUnsigned (c :: rest)

/-- Whether a non-null cell parses as a numeric literal. -/
def isNumericCell (c : Cell) : Bool :=
  match c with
  | Cell.num _ => true
  | Cell.str s => (parseNumeric s).isSome

/-- Numeric reading of a cell, when it has one. -/
def cellNum (c : Cell) : Option ℚ :=
  match c with
  | Cell.num q => some q
  | Cell.str s => parseNumeric s

/-- Modelled from the spec: the first non-null (non-missing) value of
column `c` scanning rows in original order (section 4.1); `none` when the
column is entirely null.  The ColumnTypeClassifier lives in the backend,
which is not among the frontend sources. -/
def firstNonNull (rows : List Row) (c : String) : Value :=
  match rows with
  | [] => none
  | r :: rs => if isMissing (getVal r c) then firstNonNull rs c else getVal r c

/-- Modelled from the spec: classification of one column — numeric when the
first non-null value parses as a numeric literal, categorical otherwise,
and categorical by default for an entirely null column (section 4.1). -/
def classifyCol (d : Dataset) (c : String) : ColumnType :=
  match firstNonNull d.rows c with
  | none => ColumnType.categorical
  | some v => if isNumericCell v then ColumnType.numeric else ColumnType.categorical

/-- Modelled from the spec: `classify(dataset)` — the complete column-type
map over every header (section 4.1). -/
def classify (d : Dataset) : List (String × ColumnType) :=
  d.headers.map (fun c => (c, classifyCol d c))

/-- Modelled from the spec: the discard predicate of section 4.2 — the row
has a null value in some column classified categorical. -/
def hasNullCategorical (d : Dataset) (r : Row) : Bool :=
  d.headers.any (fun c =>
    decide (classifyCol d c = ColumnType.categorical) && isMissing (getVal r c))

/-- Modelled from the spec: the row's own non-null numeric-column values
(section 4.2 step 3), read through the tolerant numeric coercion. -/
def rowNumericVals (d : Dataset) (r : Row) : List ℚ :=
  d.headers.filterMap (fun c =>
    if classifyCol d c = ColumnType.numeric then
      match getVal r c with
      | none => none
      | some v => if isMissing (some v) then none else cellNum v
    else none)

/-- Rounding to 2 decimal places. -/
def round2 (q : ℚ) : ℚ :=
  ((round (q * 100) : ℤ) : ℚ) / 100

/-- Modelled from the spec: row-wise mean imputation (section 4.2 step 3) —
when the row has at least one non-null numeric value, every null numeric
column receives the 2-decimal-rounded mean of those values; with zero
non-null numeric values the row is left untouched. -/
def imputeRow (d : Dataset) (r : Row) : Row :=
  let vals := rowNumericVals d r
  if vals.isEmpty then r
  else
    let m := round2 (vals.sum / (vals.length : ℚ))
    d.headers.map (fun c =>
      (c, if classifyCol d c = ColumnType.numeric ∧ isMissing (getVal r c) then
            some (Cell.num m)
          else getVal r c))

/-- Failure conditions of the reconciler (section 4.2 and section 7). -/
inductive ReconcileError where
  | incompatibleSchema
deriving DecidableEq, Repr

/-- The two partitions produced by reconciliation. -/
structure ReconciliationResult where
  accepted : Dataset
  discarded : Dataset
deriving DecidableEq, Repr

/-- Modelled from the spec: `reconcile(original, cleaned)` (section 4.2) —
fails on an empty header list, otherwise partitions the cleaned rows by the
null-categorical predicate, imputes the candidate-accepted rows row-wise,
and carries the cleaned headers on both partitions.  The DatasetReconciler
lives in the backend, which is not among the frontend sources; the original
dataset takes no part in the decision. -/
def reconcile (original cleaned : Dataset) : Except ReconcileError ReconciliationResult :=
  if cleaned.headers.isEmpty then Except.error ReconcileError.incompatibleSchema
  else
    Except.ok
      { accepted :=
          { headers := cleaned.headers
            rows := (cleaned.rows.filter (fun r => !hasNullCategorical cleaned r)).map
              (imputeRow cleaned) }
        discarded :=
          { headers := cleaned.headers
            rows := cleaned.rows.filter (hasNullCategorical cleaned) } }

/-- Spec scenario 7: headers [id, city, revenue] with a null categorical in
row 2 and a null numeric in row 3. -/
def exDataset : Dataset :=
  { headers := ["id", "city", "revenue"]
    rows :=
      [ [("id", some (Cell.num 1)), ("city", some (Cell.str "A")),
         ("revenue", some (Cell.num 100))],
        [("id", some (Cell.num 2)), ("city", none), ("revenue", none)],
        [("id", some (Cell.num 3)), ("city", some (Cell.str "B")),
         ("revenue", none)] ] }

/-- The second row of the scenario dataset (null categorical city). -/
def exRow2 : Row := [("id", some (Cell.num 2)), ("city", none), ("revenue", none)]

/-- The third row of the scenario dataset (null numeric revenue). -/
def exRow3 : Row :=
  [("id", some (Cell.num 3)), ("city", some (Cell.str "B")), ("revenue", none)]

/-- The reconciliation result of the scenario dataset (defaulting to empty
partitions on the error branch, which is not taken here). -/
def exRes : ReconciliationResult :=
  match reconcile exDataset exDataset with
  | Except.ok r => r
  | Except.error _ =>
      { accepted := { headers := [], rows := [] }
        discarded := { headers := [], rows := [] } }

/-- A one-field row whose single value is null. -/
def nullRow : Row := [("a", none)]

/-- Values produced by mapping column names to pairs look up to the mapped
value at any present column name. -/
theorem lookup_map_pair {α : Type} (f : String → α) (hs : List String)
    (c : String) (hc : c ∈ hs) :
    List.lookup c (hs.map (fun h => (h, f h))) = some (f c) := by
  induction hs with
  | nil => cases hc
  | cons h t ih =>
    by_cases hch : c = h
    · subst hch
      simp [List.lookup]
    · have hbeq : (c == h) = false := by
        simp [hch]
      have hmem : c ∈ t := by
        cases hc with
        | head => exact absurd rfl hch
        | tail _ h2 => exact h2
      simp [List.lookup, hbeq, ih hmem]

/-- A one-field row with the string value "x". -/
def strRow : Row := [("a", some (Cell.str "x"))]

/-- C5: for every list of rows, filtering with an empty or whitespace-only
query is the identity — both page components' search handlers return the
input row list unchanged. -/
theorem C5_blank_query_identity (rows : List Row) (q : String)
    (h : isBlank q = true) :
    ViewData.handleSearch rows q = rows ∧ CleanData.handleSearch rows q = rows := by
  constructor
  · simp [ViewData.handleSearch, h]
  · simp [CleanData.handleSearch, h]

/-- Witness for C5 at a whitespace-only query and a one-row page. -/
theorem C5_blank_query_identity_witness :
    isBlank "  " = true ∧
      (ViewData.handleSearch [nullRow] "  " = [nullRow] ∧
        CleanData.handleSearch [nullRow] "  " = [nullRow]) :=
  ⟨by decide, C5_blank_query_identity [nullRow] "  " (by decide)⟩

/-- C6 counterexample: the ViewData filter retains a row whose only value
is null for the query "null" (String(null) is "null"), although no field
matches once null values are excluded — so the claimed iff with nulls
excluded fails on the ViewData handler. -/
theorem C6_counterexample_null_participates :
    ViewData.handleSearch [nullRow] "null" = [nullRow] ∧
      CleanData.rowMatches "null" nullRow = false := by decide

/-- C6 amended: for a non-blank query both handlers return an
order-preserving subset of the input, a row being retained exactly when
some field matches the query case-insensitively as a substring of its
string form — with null fields excluded from matching in the CleanData
handler, while in the ViewData handler null fields participate through
their string form "null". -/
theorem C6_nonblank_filter_laws (rows : List Row) (q : String)
    (h : isBlank q = false) :
    List.Sublist (ViewData.handleSearch rows q) rows ∧
    (∀ r, r ∈ ViewData.handleSearch rows q ↔
      r ∈ rows ∧ ViewData.rowMatches q r = true) ∧
    List.Sublist (CleanData.handleSearch rows q) rows ∧
    (∀ r, r ∈ CleanData.handleSearch rows q ↔
      r ∈ rows ∧ CleanData.rowMatches q r = true) := by
  refine ⟨?_, ?_, ?_, ?_⟩
  · simp only [ViewData.handleSearch, h, Bool.false_eq_true, if_false]
    exact List.filter_sublist rows
  · intro r
    simp [ViewData.handleSearch, h, List.mem_filter]
  · simp only [CleanData.handleSearch, h, Bool.false_eq_true, if_false]
    by_cases hr : rows.isEmpty
    · simp [hr]
    · simp only [hr, Bool.false_eq_true, if_false]
      exact List.filter_sublist rows
  · intro r
    by_cases hr : rows.isEmpty
    · rw [List.isEmpty_iff] at hr
      subst hr
      simp [CleanData.handleSearch, h]
    · simp [CleanData.handleSearch, h, hr, List.mem_filter]

/-- Witness for the amended C6 at a non-blank query and a one-row page. -/
theorem C6_nonblank_filter_laws_witness :
    List.Sublist (ViewData.handleSearch [strRow] "x") [strRow] :=
  (C6_nonblank_filter_laws [strRow] "x" (by decide)).1

/-- C7: neither page-change handler ever issues a fetch for a page below 1
or above total_pages — whenever a fetch is issued, the requested page is in
range. -/
theorem C7_page_change_bounds (pag : Pagination) (newPage : Int)
    (fileName : Option String) :
    (∀ p, ViewData.handlePageChange pag newPage = some p →
      1 ≤ p ∧ p ≤ pag.total_pages) ∧
    (∀ p, CleanData.handleFullDataPageChange fileName pag newPage = some p →
      1 ≤ p ∧ p ≤ pag.total_pages) := by
  constructor
  · intro p h
    unfold ViewData.handlePageChange at h
    split at h
    · rename_i hcond
      cases h
      exact hcond
    · cases h
  · intro p h
    unfold CleanData.handleFullDataPageChange at h
    split at h
    · rename_i hcond
      cases h
      exact hcond.2
    · cases h

/-- Witness for C7 at page 2 of 5. -/
theorem C7_page_change_bounds_witness : 1 ≤ (2 : Int) ∧ (2 : Int) ≤ 5 :=
  (C7_page_change_bounds
      { current_page := 1, total_pages := 5, total_rows := 230, page_size := 50 }
      2 (some "f")).1 2 (by decide)

/-- C8: every in-range page navigation issues a fetch — the handlers
consult only the pagination bounds, never previously materialized rows, so
re-entering page 1 refetches — and a successful fetch replaces the
materialized rows with exactly the fetched page (only one page is held). -/
theorem C8_in_range_navigation_fetches (s : ViewData.State) (cs : CleanData.State)
    (pag : Pagination) (p : Int) (res : FetchResult) (fileName : String)
    (h1 : 1 ≤ p) (h2 : p ≤ pag.total_pages) :
    ViewData.handlePageChange pag p = some p ∧
    CleanData.handleFullDataPageChange (some fileName) pag p = some p ∧
    (ViewData.fetchData s (Except.ok res)).data = res.data ∧
    (CleanData.fetchPaginatedData cs (some fileName) (Except.ok res)).fullData =
      res.data := by
  refine ⟨?_, ?_, rfl, rfl⟩
  · unfold ViewData.handlePageChange
    rw [if_pos ⟨h1, h2⟩]
  · unfold CleanData.handleFullDataPageChange
    rw [if_pos ⟨rfl, h1, h2⟩]

/-- A concrete pagination record with five pages. -/
def exPag : Pagination :=
  { current_page := 1
    total_pages := 5
    total_rows := 230
    page_size := 50 }

/-- A concrete successful fetch payload: one row under header "a". -/
def exFetch : FetchResult :=
  { data := [strRow]
    headers := ["a"]
    pagination := exPag }

/-- A concrete CleanData modal state before any fetch. -/
def exCleanState : CleanData.State :=
  { fullData := []
    fullDataHeaders := []
    fullDataPagination :=
      { current_page := 1
        total_pages := 1
        total_rows := 0
        page_size := 50 }
    fullDataError := none
    isLoadingFullData := false }

/-- Witness for C8: re-entering page 1 of a 5-page dataset refetches and
the success handler holds exactly the fetched page. -/
theorem C8_in_range_navigation_fetches_witness :
    ViewData.handlePageChange exPag 1 = some 1 ∧
      CleanData.handleFullDataPageChange (some "f") exPag 1 = some 1 ∧
      (ViewData.fetchData ViewData.initState (Except.ok exFetch)).data = [strRow] ∧
      (CleanData.fetchPaginatedData exCleanState (some "f")
        (Except.ok exFetch)).fullData = [strRow] :=
  C8_in_range_navigation_fetches ViewData.initState exCleanState exPag 1 exFetch
    "f" (by decide) (by decide)

/-- C9: a failed page fetch records the error message (user-visible error
state) and leaves the pagination — in particular current_page — and the
previously shown rows untouched, in both components. -/
theorem C9_failed_fetch_preserves_pagination (s : ViewData.State)
    (cs : CleanData.State) (fileName msg : String) :
    (ViewData.fetchData s (Except.error msg)).error = some msg ∧
    (ViewData.fetchData s (Except.error msg)).pagination = s.pagination ∧
    (ViewData.fetchData s (Except.error msg)).data = s.data ∧
    (CleanData.fetchPaginatedData cs (some fileName) (Except.error msg)).fullDataError =
      some msg ∧
    (CleanData.fetchPaginatedData cs (some fileName) (Except.error msg)).fullDataPagination =
      cs.fullDataPagination :=
  ⟨rfl, rfl, rfl, rfl, rfl⟩

/-- Each ViewData operation preserves the invariant that the visible
filtered list is a subsequence of the materialized page. -/
theorem viewFilteredSublistStep (s : ViewData.State) (op : ViewData.Op)
    (h : List.Sublist s.filteredData s.data) :
    List.Sublist (ViewData.applyOp s op).filteredData (ViewData.applyOp s op).data := by
  cases op with
  | fetch outcome =>
    cases outcome with
    | ok res =>
      simp [ViewData.applyOp, ViewData.fetchData]
    | error msg =>
      simpa [ViewData.applyOp, ViewData.fetchData] using h
  | search q =>
    simp only [ViewData.applyOp, ViewData.handleSearchState]
    unfold ViewData.handleSearch
    split
    · exact List.Sublist.refl _
    · exact List.filter_sublist _
  | clearSearch =>
    simp [ViewData.applyOp, ViewData.handleClearSearch]

/-- C10: after any sequence of operations from the initial mount state, the
visible filtered list is an order-preserving subsequence of the currently
materialized page, and a successful page fetch resets the visible list to
the entire newly fetched page while the entered search term stays in the
box. -/
theorem C10_visible_list_subsequence (ops : List ViewData.Op)
    (s : ViewData.State) (res : FetchResult) :
    List.Sublist (ops.foldl ViewData.applyOp ViewData.initState).filteredData
      (ops.foldl ViewData.applyOp ViewData.initState).data ∧
    (ViewData.applyOp s (ViewData.Op.fetch (Except.ok res))).filteredData = res.data ∧
    (ViewData.applyOp s (ViewData.Op.fetch (Except.ok res))).searchTerm = s.searchTerm := by
  refine ⟨?_, rfl, rfl⟩
  have main : ∀ (l : List ViewData.Op) (t : ViewData.State),
      List.Sublist t.filteredData t.data →
      List.Sublist ((l.foldl ViewData.applyOp t).filteredData)
        ((l.foldl ViewData.applyOp t).data) := by
    intro l
    induction l with
    | nil =>
      intro t ht
      simpa using ht
    | cons op rest ih =>
      intro t ht
      exact ih _ (viewFilteredSublistStep t op ht)
  exact main ops ViewData.initState (List.Sublist.refl _)

/-- C1: reconciliation partitions the cleaned rows totally and disjointly —
accepted row count plus discarded row count equals the cleaned row count. -/
theorem C1_partition_totality (original cleaned : Dataset)
    (res : ReconciliationResult)
    (h : reconcile original cleaned = Except.ok res) :
    res.accepted.rows.length + res.discarded.rows.length = cleaned.rows.length := by
  unfold reconcile at h
  split at h
  · cases h
  · cases h
    simp only [List.length_map]
    have hsplit :=
      List.length_eq_length_filter_add (l := cleaned.rows) (hasNullCategorical cleaned)
    omega

/-- Witness for C1 on the scenario dataset: 2 accepted + 1 discarded = 3. -/
theorem C1_partition_totality_witness :
    exRes.accepted.rows.length + exRes.discarded.rows.length =
      exDataset.rows.length :=
  C1_partition_totality exDataset exDataset exRes rfl

/-- C2: a cleaned row lands in discarded exactly when some column
classified categorical holds a null/empty value in it, and every other
cleaned row lands (imputed) in accepted. -/
theorem C2_discard_predicate (original cleaned : Dataset)
    (res : ReconciliationResult)
    (h : reconcile original cleaned = Except.ok res) :
    (∀ r, r ∈ res.discarded.rows ↔
      r ∈ cleaned.rows ∧ hasNullCategorical cleaned r = true) ∧
    (∀ r, hasNullCategorical cleaned r = true ↔
      ∃ c ∈ cleaned.headers, classifyCol cleaned c = ColumnType.categorical ∧
        isMissing (getVal r c) = true) ∧
    (∀ r, r ∈ cleaned.rows → hasNullCategorical cleaned r = false →
      imputeRow cleaned r ∈ res.accepted.rows) := by
  unfold reconcile at h
  split at h
  · cases h
  · cases h
    refine ⟨?_, ?_, ?_⟩
    · intro r
      simp [List.mem_filter]
    · intro r
      simp [hasNullCategorical, List.any_eq_true]
    · intro r hr hnot
      simp only [List.mem_map]
      refine ⟨r, ?_, rfl⟩
      simp [List.mem_filter, hr, hnot]

/-- Witness for C2 on the scenario dataset: the row with the null city is
discarded. -/
theorem C2_discard_predicate_witness : exRow2 ∈ exRes.discarded.rows :=
  ((C2_discard_predicate exDataset exDataset exRes rfl).1 exRow2).mpr
    ⟨by decide, by decide⟩

/-- getVal over a rebuilt headers-to-value row reads back the mapped
value at any present column. -/
theorem getVal_map_pair (f : String → Value) (hs : List String) (c : String)
    (hc : c ∈ hs) :
    getVal (hs.map (fun h => (h, f h))) c = f c := by
  unfold getVal
  rw [lookup_map_pair f hs c hc]

/-- C3: for any candidate-accepted row (no null categorical), its imputed
form lands in accepted; every null numeric column receives the
2-decimal-rounded mean of the row's own non-null numeric values when there
is at least one, and stays unchanged (unfilled) when there are none; and
imputation never modifies categorical columns. -/
theorem C3_row_wise_imputation (original cleaned : Dataset)
    (res : ReconciliationResult) (r : Row)
    (h : reconcile original cleaned = Except.ok res)
    (hr : r ∈ cleaned.rows) (hacc : hasNullCategorical cleaned r = false) :
    imputeRow cleaned r ∈ res.accepted.rows ∧
    (∀ c ∈ cleaned.headers,
      classifyCol cleaned c = ColumnType.numeric →
      isMissing (getVal r c) = true →
        getVal (imputeRow cleaned r) c =
          (if (rowNumericVals cleaned r).isEmpty then getVal r c
            else some (Cell.num (round2 ((rowNumericVals cleaned r).sum /
              ((rowNumericVals cleaned r).length : ℚ)))))) ∧
    (∀ c ∈ cleaned.headers,
      classifyCol cleaned c = ColumnType.categorical →
        getVal (imputeRow cleaned r) c = getVal r c) := by
  refine ⟨?_, ?_, ?_⟩
  · unfold reconcile at h
    split at h
    · cases h
    · cases h
      simp only [List.mem_map]
      refine ⟨r, ?_, rfl⟩
      simp [List.mem_filter, hr, hacc]
  · intro c hc hnum hmiss
    unfold imputeRow
    cases hB : (rowNumericVals cleaned r).isEmpty with
    | true => simp [hB]
    | false =>
      simp only [hB, Bool.false_eq_true, if_false]
      rw [getVal_map_pair _ _ _ hc, if_pos ⟨hnum, hmiss⟩]
  · intro c hc hcat
    unfold imputeRow
    cases hB : (rowNumericVals cleaned r).isEmpty with
    | true => simp [hB]
    | false =>
      simp only [hB, Bool.false_eq_true, if_false]
      rw [getVal_map_pair _ _ _ hc, if_neg]
      intro hcontra
      rw [hcat] at hcontra
      cases hcontra.1

/-- Witness for C3 on the scenario dataset: the null revenue of the third
row is filled per the row-wise mean rule. -/
theorem C3_row_wise_imputation_witness :
    getVal (imputeRow exDataset exRow3) "revenue" =
      (if (rowNumericVals exDataset exRow3).isEmpty then getVal exRow3 "revenue"
        else some (Cell.num (round2 ((rowNumericVals exDataset exRow3).sum /
          ((rowNumericVals exDataset exRow3).length : ℚ))))) :=
  (C3_row_wise_imputation exDataset exDataset exRes exRow3 rfl (by decide)
      (by decide)).2.1 "revenue" (by decide) (by decide) (by decide)

/-- A column whose values are missing in every row has no first non-null
sample. -/
theorem firstNonNull_eq_none_of_all_missing (rows : List Row) (c : String)
    (h : ∀ r ∈ rows, isMissing (getVal r c) = true) :
    firstNonNull rows c = none := by
  induction rows with
  | nil => rfl
  | cons r rs ih =>
    unfold firstNonNull
    rw [if_pos (h r (List.mem_cons_self r rs))]
    exact ih (fun x hx => h x (List.mem_cons_of_mem _ hx))

/-- C4: the classifier is a total function returning one type per header
(complete coverage, deterministic by being a function of the dataset
alone); each column is classified from its first non-null sampled value —
numeric exactly when that value parses as a numeric literal — and an
entirely null column defaults to categorical. -/
theorem C4_classifier_total_complete (d : Dataset) :
    (classify d).map Prod.fst = d.headers ∧
    (∀ c ∈ d.headers, List.lookup c (classify d) = some (classifyCol d c)) ∧
    (∀ c, (∀ r ∈ d.rows, isMissing (getVal r c) = true) →
      classifyCol d c = ColumnType.categorical) ∧
    (∀ c v, firstNonNull d.rows c = some v →
      classifyCol d c =
        (if isNumericCell v then ColumnType.numeric else ColumnType.categorical)) := by
  refine ⟨?_, ?_, ?_, ?_⟩
  · simp only [classify, List.map_map]
    exact List.map_id d.headers
  · intro c hc
    unfold classify
    exact lookup_map_pair (fun h => classifyCol d h) d.headers c hc
  · intro c hall
    unfold classifyCol
    rw [firstNonNull_eq_none_of_all_missing d.rows c hall]
  · intro c v hv
    unfold classifyCol
    rw [hv]

/-- Witness for C4 on the scenario dataset at the city column. -/
theorem C4_classifier_total_complete_witness :
    List.lookup "city" (classify exDataset) =
      some (classifyCol exDataset "city") :=
  (C4_classifier_total_complete exDataset).2.1 "city" (by decide)
